import Mathlib

/-!
Verification of the synchronization engine of an Obsidian→Anki flashcard
tool (source files `sync.py`, `images.py`, `parser.py`).

Texts are modelled as `List Char` (`Text`). The Python regular expressions
used by the source are small enough that each one reduces to a
deterministic scanner; every scanner below is derived from the concrete
pattern in the source:

* `OBSIDIAN_IMAGE_RE = !\[\[([^\]]+\.EXT)\]\]` (IGNORECASE): after `![[`
  the group `[^\]]+\.EXT` consumes only non-`]` characters, so a match at
  a position exists iff the maximal run `R` of non-`]` characters after
  `![[` ends (case-insensitively) in `.ext` with a nonempty stem and is
  followed by `]]`; the captured group is all of `R`.
* `MARKDOWN_IMAGE_RE = !\[[^\]]*\]\(([^)]+\.EXT)\)` (IGNORECASE):
  analogously the bracket part must be the maximal run of non-`]`
  characters and the group the maximal run `S` of non-`)` characters,
  ending in `.ext`, followed by `)`.
* `ANKI_ID_RE = <!--\s*anki-id:\s*(\d+)\s*-->`, used with `re.match`
  (prefix match): literal `<!--`, whitespace run, literal `anki-id:`,
  whitespace run, maximal nonempty digit run, whitespace run, `-->`.
* the section pattern `^## Flashcards\s*\n(.*?)(?=^## |\Z)` with
  MULTILINE and DOTALL: leftmost line start with the literal
  `## Flashcards` followed by a whitespace run containing a newline
  (the header consumes up to the last newline of that run); the lazy
  body extends to the first following line start `## ` or end of text.

Whitespace (`\s`, `str.strip`, `str.split`) is modelled by the six ASCII
whitespace characters. Python's `re.sub`/`finditer` scan left to right,
non-overlapping, continuing after each match; the scanners use fuel
(initialised with the text length, which bounds the number of scan steps)
to stay structurally recursive.
-/

abbrev Text := List Char

/-- ASCII model of Python's whitespace class (`\s`, `str.strip`). -/
def isSpaceCh (c : Char) : Bool :=
  c = ' ' || c = '\t' || c = '\n' || c = '\r' || c = '\x0b' || c = '\x0c'

/-- `pre` is a prefix of `t` (models `str.startswith` / anchored literals). -/
def startsWithT : Text → Text → Bool
  | [], _ => true
  | _ :: _, [] => false
  | p :: ps, c :: cs => p = c && startsWithT ps cs

/-- `suf` is a suffix of `t` (models `str.endswith` / end-anchored literals). -/
def endsWithT (suf t : Text) : Bool :=
  startsWithT suf.reverse t.reverse

/-- Python `str.strip()`. -/
def stripText (t : Text) : Text :=
  ((t.dropWhile isSpaceCh).reverse.dropWhile isSpaceCh).reverse

/-- Python `s.split('\n')`: always returns `number of newlines + 1` pieces. -/
def splitOnNl : Text → List Text
  | [] => [[]]
  | c :: rest =>
    if c = '\n' then [] :: splitOnNl rest
    else
      match splitOnNl rest with
      | [] => [[c]]
      | l :: ls => (c :: l) :: ls

/-- Python `'\n'.join(lines)`. -/
def joinNl : List Text → Text
  | [] => []
  | [l] => l
  | l :: ls => l ++ '\n' :: joinNl ls

/-- Decimal value of a digit run (models `int(...)` on a `\d+` group). -/
def digitsToNat (t : Text) : Nat :=
  t.foldl (fun a c => 10 * a + (c.toNat - '0'.toNat)) 0

/-- Python `str.split()`: words separated by whitespace runs, no empties. -/
def wordsOf (t : Text) : List Text :=
  (t.foldr
    (fun c acc =>
      if isSpaceCh c then [] :: acc
      else
        match acc with
        | [] => [[c]]
        | w :: ws => (c :: w) :: ws)
    []).filter (fun w => !w.isEmpty)

/-! ## images.py -/

/-- `IMAGE_EXTENSIONS` of `images.py`. -/
def imgExts : List Text :=
  ["png".data, "jpg".data, "jpeg".data, "gif".data, "bmp".data, "svg".data, "webp".data]

/-- The captured group `[^\]]+\.EXT` (resp. `[^)]+\.EXT`) is satisfied by a
run `r` iff `r` ends case-insensitively in `.ext` with at least one
character in front of the dot. -/
def hasImgExt (r : Text) : Bool :=
  imgExts.any fun e =>
    let p := '.' :: e
    decide (p.length + 1 ≤ r.length) && decide ((r.drop (r.length - p.length)).map Char.toLower = p)

/-- `pathlib.Path(s).name` for the captured groups (which never end in a
slash, since they end in an image extension): the part after the last `/`. -/
def baseName (t : Text) : Text :=
  (t.reverse.takeWhile (· ≠ '/')).reverse

/-- The replacement text `<img src="{Path(g).name}">` of `to_anki_syntax`. -/
def imgTag (g : Text) : Text :=
  "<img src=\"".data ++ baseName g ++ "\">".data

/-- Match of `OBSIDIAN_IMAGE_RE` anchored at the start of `t`:
returns (captured group, rest after the match). -/
def matchObAt (t : Text) : Option (Text × Text) :=
  if startsWithT "![[".data t then
    let r := (t.drop 3).takeWhile (· ≠ ']')
    if hasImgExt r && startsWithT "]]".data (t.drop (3 + r.length)) then
      some (r, t.drop (3 + r.length + 2))
    else none
  else none

/-- Match of `MARKDOWN_IMAGE_RE` anchored at the start of `t`. -/
def matchMdAt (t : Text) : Option (Text × Text) :=
  if startsWithT "![".data t then
    let q := (t.drop 2).takeWhile (· ≠ ']')
    let t1 := t.drop (2 + q.length)
    if startsWithT "](".data t1 then
      let s := (t1.drop 2).takeWhile (· ≠ ')')
      if hasImgExt s && startsWithT ")".data (t1.drop (2 + s.length)) then
        some (s, t1.drop (2 + s.length + 1))
      else none
    else none
  else none

/-- `OBSIDIAN_IMAGE_RE.sub` (left-to-right, non-overlapping), with fuel. -/
def obSubF : Nat → Text → Text
  | _, [] => []
  | 0, t => t
  | fuel + 1, c :: rest =>
    match matchObAt (c :: rest) with
    | some (g, rem) => imgTag g ++ obSubF fuel rem
    | none => c :: obSubF fuel rest

/-- `MARKDOWN_IMAGE_RE.sub`, with fuel. -/
def mdSubF : Nat → Text → Text
  | _, [] => []
  | 0, t => t
  | fuel + 1, c :: rest =>
    match matchMdAt (c :: rest) with
    | some (g, rem) => imgTag g ++ mdSubF fuel rem
    | none => c :: mdSubF fuel rest

def obSub (t : Text) : Text := obSubF t.length t

def mdSub (t : Text) : Text := mdSubF t.length t

/-- `images.to_anki_syntax`: Obsidian-style substitution, then
markdown-style substitution. -/
def toAnkiImgTags (t : Text) : Text := mdSub (obSub t)

/-- Whether any `OBSIDIAN_IMAGE_RE` match occurs anywhere in `t`. -/
def hasObMatchF : Nat → Text → Bool
  | _, [] => false
  | 0, _ => false
  | fuel + 1, c :: rest => (matchObAt (c :: rest)).isSome || hasObMatchF fuel rest

/-- Whether any `MARKDOWN_IMAGE_RE` match occurs anywhere in `t`. -/
def hasMdMatchF : Nat → Text → Bool
  | _, [] => false
  | 0, _ => false
  | fuel + 1, c :: rest => (matchMdAt (c :: rest)).isSome || hasMdMatchF fuel rest

def hasObMatch (t : Text) : Bool := hasObMatchF t.length t

def hasMdMatch (t : Text) : Bool := hasMdMatchF t.length t

/-- `OBSIDIAN_IMAGE_RE.finditer`: captured groups, in order. -/
def obFindF : Nat → Text → List Text
  | _, [] => []
  | 0, _ => []
  | fuel + 1, c :: rest =>
    match matchObAt (c :: rest) with
    | some (g, rem) => g :: obFindF fuel rem
    | none => obFindF fuel rest

/-- `MARKDOWN_IMAGE_RE.finditer`: captured groups, in order. -/
def mdFindF : Nat → Text → List Text
  | _, [] => []
  | 0, _ => []
  | fuel + 1, c :: rest =>
    match matchMdAt (c :: rest) with
    | some (g, rem) => g :: mdFindF fuel rem
    | none => mdFindF fuel rest

/-- `images.extract_from_text`: Obsidian matches then markdown matches. -/
def extractFromText (t : Text) : List Text :=
  obFindF t.length t ++ mdFindF t.length t

/-- Python `str.replace("\n", "<br>")`. -/
def replaceNl : Text → Text
  | [] => []
  | c :: r => (if c = '\n' then "<br>".data else [c]) ++ replaceNl r

/-! ## Section location (`^## Flashcards\s*\n(.*?)(?=^## |\Z)`, MULTILINE|DOTALL)

Used identically by `parse_cards_with_ids` and `write_ids_to_markdown`.
-/

/-- Length of the longest whitespace prefix of `t` that ends in a newline
(the greedy `\s*\n` after the section heading literal). -/
def wsUptoLastNl : Text → Option Nat
  | [] => none
  | c :: rest =>
    if isSpaceCh c then
      match wsUptoLastNl rest with
      | some k => some (k + 1)
      | none => if c = '\n' then some 1 else none
    else none

/-- Length consumed by `## Flashcards\s*\n` when anchored at the start of
`t`, if it matches there. -/
def matchHeaderLen (t : Text) : Option Nat :=
  if startsWithT "## Flashcards".data t then
    (wsUptoLastNl (t.drop 13)).map (13 + ·)
  else none

/-- The lazy body `(.*?)(?=^## |\Z)`: `t` starts at a line start; the body
ends at the first following line start `## `, or at the end of the text.
Returns (body, rest). -/
def splitBody : Nat → Text → Text × Text
  | 0, t => if startsWithT "## ".data t then ([], t) else (t, [])
  | fuel + 1, t =>
    if startsWithT "## ".data t then ([], t)
    else
      match t.dropWhile (· ≠ '\n') with
      | [] => (t, [])
      | c :: rest =>
        let p := splitBody fuel rest
        (t.takeWhile (· ≠ '\n') ++ c :: p.1, p.2)

/-- Leftmost match of the section pattern: scans line starts top to bottom.
`t` is the not-yet-scanned tail, which starts at a line start. Returns
(everything up to and including the matched heading, the section body,
the rest of the text). -/
def findSecAux : Nat → Text → Option (Text × Text × Text)
  | 0, t =>
    match matchHeaderLen t with
    | some hl =>
      let body := t.drop hl
      let p := splitBody body.length body
      some (t.take hl, p.1, p.2)
    | none => none
  | fuel + 1, t =>
    match matchHeaderLen t with
    | some hl =>
      let body := t.drop hl
      let p := splitBody body.length body
      some (t.take hl, p.1, p.2)
    | none =>
      match t.dropWhile (· ≠ '\n') with
      | [] => none
      | c :: rest =>
        match findSecAux fuel rest with
        | some (pre, b, s) => some (t.takeWhile (· ≠ '\n') ++ c :: pre, b, s)
        | none => none

/-- `re.search` of the section pattern over the whole text. -/
def findSec (t : Text) : Option (Text × Text × Text) :=
  findSecAux t.length t

/-! ## Cards and the marker-aware parser (`parse_cards_with_ids`) -/

/-- The two card variants of `parser.py` (`BasicCard` / `ClozeCard`). -/
inductive Card where
  | basic (front back : Text)
  | cloze (text : Text)
deriving DecidableEq

/-- `ANKI_ID_RE.match(stripped)`, returning the captured id. `re.match`
only anchors at the start, so trailing text after `-->` is allowed. -/
def ankiIdMatch (t : Text) : Option Nat :=
  if startsWithT "<!--".data t then
    let r1 := (t.drop 4).dropWhile isSpaceCh
    if startsWithT "anki-id:".data r1 then
      let r2 := (r1.drop 8).dropWhile isSpaceCh
      let ds := r2.takeWhile Char.isDigit
      if !ds.isEmpty && startsWithT "-->".data ((r2.drop ds.length).dropWhile isSpaceCh) then
        some (digitsToNat ds)
      else none
    else none
  else none

/-- State of the block-accumulation loop in `parse_cards_with_ids`. -/
structure PBState where
  blocks : List (Option Nat × Text)
  currentId : Option Nat
  currentLines : List Text
deriving DecidableEq

/-- Flushing `current_lines` into a block (shared by the three flush sites
of the Python loop: the check `if current_lines` is done by callers, the
check `if block_text` here). -/
def pbFlush (st : PBState) : List (Option Nat × Text) :=
  if st.currentLines.isEmpty then st.blocks
  else
    let bt := stripText (joinNl st.currentLines)
    if bt.isEmpty then st.blocks else st.blocks ++ [(st.currentId, bt)]

/-- One line of the block-accumulation loop of `parse_cards_with_ids`. -/
def pbStep (st : PBState) (line : Text) : PBState :=
  let stripped := stripText line
  match ankiIdMatch stripped with
  | some n =>
    if st.currentLines.isEmpty then { st with currentId := some n }
    else { blocks := pbFlush st, currentId := some n, currentLines := [] }
  | none =>
    if stripped.isEmpty then
      if st.currentLines.isEmpty then st
      else { blocks := pbFlush st, currentId := none, currentLines := [] }
    else { st with currentLines := st.currentLines ++ [line] }

/-- The full block-accumulation pass (loop plus final flush). -/
def parseBlocks (lines : List Text) : List (Option Nat × Text) :=
  pbFlush (lines.foldl pbStep { blocks := [], currentId := none, currentLines := [] })

/-- First MULTILINE match of `^A:\s*` in a block: returns (text before the
match, text after the consumed separator `A:` + whitespace run). Models
`re.split(r'^A:\s*', block, maxsplit=1, flags=re.MULTILINE)`. -/
def findALine : Nat → Text → Option (Text × Text)
  | 0, t =>
    if startsWithT "A:".data t then some ([], (t.drop 2).dropWhile isSpaceCh)
    else none
  | fuel + 1, t =>
    if startsWithT "A:".data t then some ([], (t.drop 2).dropWhile isSpaceCh)
    else
      match t.dropWhile (· ≠ '\n') with
      | [] => none
      | c :: rest =>
        match findALine fuel rest with
        | some (p, a) => some (t.takeWhile (· ≠ '\n') ++ c :: p, a)
        | none => none

/-- `_parse_qa_block` (the `sync.py` copy, which mirrors the parser's). -/
def qaCard (block : Text) : Option Card :=
  match findALine block.length block with
  | none => none
  | some (pre, aft) =>
    let front0 := stripText pre
    let front :=
      if startsWithT "Q:".data front0 then (front0.drop 2).dropWhile isSpaceCh else front0
    let back := stripText aft
    if front.isEmpty || back.isEmpty then none else some (Card.basic front back)

/-- A match of `\x7b\x7bc\d+::` anchored at the start of `t`
(the cloze-marker pattern, braces escaped here as `\x7b`). -/
def clozeAt (t : Text) : Bool :=
  startsWithT "\x7b\x7bc".data t &&
    (let r := t.drop 3
     let ds := r.takeWhile Char.isDigit
     !ds.isEmpty && startsWithT "::".data (r.drop ds.length))

/-- `re.search(r'\x7b\x7bc\d+::', t)`. -/
def hasClozeMark : Text → Bool
  | [] => false
  | c :: rest => clozeAt (c :: rest) || hasClozeMark rest

/-- `re.fullmatch(r'!\[\[.*?\]\]', t)`: starts with `![[`, ends with `]]`,
and the middle (which `.` must cover without DOTALL) has no newline. -/
def isImageOnlyBlock (t : Text) : Bool :=
  startsWithT "![[".data t && decide (5 ≤ t.length) && endsWithT "]]".data t &&
    ((t.drop 3).take (t.length - 5)).all (· ≠ '\n')

/-- Classification of one accumulated block in `parse_cards_with_ids`
(blockquotes and image-only blocks are skipped, `Q:` blocks go through
`_parse_qa_block`, otherwise a cloze marker makes a cloze card). -/
def classifyBlock (p : Option Nat × Text) : Option (Card × Option Nat) :=
  if startsWithT ">".data p.2 then none
  else if isImageOnlyBlock p.2 then none
  else if startsWithT "Q:".data p.2 then (qaCard p.2).map (⟨·, p.1⟩)
  else if hasClozeMark p.2 then some (Card.cloze p.2, p.1)
  else none

/-- `sync.parse_cards_with_ids`. -/
def parseCardsWithIds (md : Text) : List (Card × Option Nat) :=
  match findSec md with
  | none => []
  | some (_, body, _) => (parseBlocks (splitOnNl body)).filterMap classifyBlock

/-! ## Field mapping and comparison (`_card_to_fields`, `_fields_match`) -/

/-- The normalization applied to every field in `_card_to_fields`:
`images.to_anki_syntax(text).replace("\n", "<br>")`. -/
def normalizeField (t : Text) : Text := replaceNl (toAnkiImgTags t)

/-- `sync._card_to_fields`. -/
def cardToFields : Card → List (String × Text)
  | Card.basic f b => [("Front", normalizeField f), ("Back", normalizeField b)]
  | Card.cloze t => [("Text", normalizeField t)]

/-- Remote record info (`ankiconnect.AnkiNoteInfo`); `fields` is the flat
field dict (unique keys, as produced from a JSON object). -/
structure AnkiNoteInfo where
  noteId : Nat
  modelName : String
  tags : List String
  fields : List (String × Text)
  mod : Nat
deriving DecidableEq

/-- Python `info.fields.get(key, "")`. -/
def getFieldD (fields : List (String × Text)) (k : String) : Text :=
  match fields.lookup k with
  | some v => v
  | none => []

/-- `sync._fields_match`: every expected field value equals the remote
value looked up with default `""`. -/
def fieldsMatch (card : Card) (info : AnkiNoteInfo) : Bool :=
  (cardToFields card).all fun kv => getFieldD info.fields kv.1 = kv.2

/-- Modelled from the spec: the "fields match" relation as §4.3 words it —
the field-mapper output equals, key-by-key, the remote record's field
values for the same keys, and a key missing from the remote fields is a
mismatch. Used only to compare against `fieldsMatch` (the code's
comparison). -/
def fieldsMatchSpec (card : Card) (info : AnkiNoteInfo) : Bool :=
  (cardToFields card).all fun kv =>
    match info.fields.lookup kv.1 with
    | some v => v = kv.2
    | none => false

/-! ## Sync data structures (`sync.py`) -/

/-- `sync.CardAction`. -/
inductive CardAction where
  | new
  | updated
  | unchanged
  | deletedFromObsidian
  | deletedFromAnki
  | error
deriving DecidableEq

/-- `sync.CardSyncDetail`. -/
structure CardSyncDetail where
  action : CardAction
  cardType : String
  ankiNoteId : Option Nat
  summary : Text
  error : String
deriving DecidableEq

/-- `sync.SyncResult`. -/
structure SyncResult where
  filePath : String
  newCount : Nat
  updatedCount : Nat
  unchangedCount : Nat
  deletedFromObsidian : Nat
  deletedFromAnki : Nat
  errorCount : Nat
  details : List CardSyncDetail
  errors : List String
deriving DecidableEq

/-- `SyncResult(file_path=...)` with all-default counters. -/
def emptyResult (fp : String) : SyncResult :=
  { filePath := fp, newCount := 0, updatedCount := 0, unchangedCount := 0,
    deletedFromObsidian := 0, deletedFromAnki := 0, errorCount := 0,
    details := [], errors := [] }

/-- `sync._card_summary`. -/
def cardSummary (card : Card) : Text :=
  let t := match card with
    | Card.basic f _ => f
    | Card.cloze tx => tx
  t.take 60 ++ (if 60 < t.length then "...".data else [])

/-- `sync._card_type`. -/
def cardTypeStr : Card → String
  | Card.basic _ _ => "basic"
  | Card.cloze _ => "cloze"

/-- `sync._model_name`. -/
def modelNameOf : Card → String
  | Card.basic _ _ => "Basic"
  | Card.cloze _ => "Cloze"

/-- `sync._source_tag`: `obsidian-src::` + file stem lowercased with
spaces turned into hyphens (the stem is passed in as a string). -/
def sourceTag (stem : String) : String :=
  "obsidian-src::" ++ String.mk ((stem.data.map Char.toLower).map fun c => if c = ' ' then '-' else c)

/-- The note-level tag list `[t for t in tags.split() if t] + [src_tag]`. -/
def tagListOf (noteTags : String) (srcTag : String) : List String :=
  ((wordsOf noteTags.data).filter (fun w => !w.isEmpty)).map String.mk ++ [srcTag]

/-- The remote calls `sync_note` can issue through the client, with their
arguments. Queries (`notesInfo`, `findNotes`, `getMediaDir`) are included
so the traces are complete; `isMutation` singles out the mutating ones. -/
inductive RemoteCall where
  | notesInfo (ids : List Nat)
  | addNote (deck model : String) (fields : List (String × Text)) (tags : List String)
  | updateNote (id : Nat) (fields : List (String × Text)) (tags : List String)
  | findNotes (query : String)
  | deleteNotes (ids : List Nat)
  | addTags (ids : List Nat) (tags : String)
  | getMediaDir
deriving DecidableEq

/-- Create / update / delete / add-tag calls are remote mutations. -/
def RemoteCall.isMutation : RemoteCall → Bool
  | RemoteCall.addNote _ _ _ _ => true
  | RemoteCall.updateNote _ _ _ => true
  | RemoteCall.deleteNotes _ => true
  | RemoteCall.addTags _ _ => true
  | _ => false

/-- Oracle for the remote side of one `sync_note` run: the batch
`notes_info` response, the per-card-index results of `add_note` /
`update_note` (each loop iteration makes at most one of each, so indexing
by card index is faithful), the `find_notes` response, the results of the
single `delete_notes` / `add_tags` call the orphan step can make (each
can raise `AnkiConnectError`), and the media paths (`""` models a
missing/empty path, which is falsy in Python). -/
structure Env where
  fetch : Except String (List AnkiNoteInfo)
  addNote : Nat → Except String Nat
  updateNote : Nat → Except String Unit
  findNotes : Except String (List Nat)
  deleteNotes : Except String Unit
  addTags : Except String Unit
  mediaDir : String
  configMedia : String

/-- `anki_info_map` lookup: the dict is built by
`for info in infos: if info.note_id: map[info.note_id] = info`,
so a key maps to the last listed info with that (nonzero) id. -/
def lookupInfo (infos : List AnkiNoteInfo) (a : Nat) : Option AnkiNoteInfo :=
  (infos.filter fun i => i.noteId = a && i.noteId ≠ 0).getLast?

/-- Accumulated state of the per-card loop: the `SyncResult` being
mutated, `new_card_ids`, and the trace of remote calls so far. -/
structure LoopAcc where
  result : SyncResult
  newCardIds : List (Nat × Option Nat)
  calls : List RemoteCall
deriving DecidableEq

/-! ## The per-card loop (`sync_note`, step 3) -/

/-- Body of `for idx, (card, anki_id) in enumerate(cards_with_ids)` in
`sync_note` (lines 308–411 of `sync.py`), as a pure state transformer. -/
def syncStep (env : Env) (dry : Bool) (deck : String) (tagList : List String)
    (infos : List AnkiNoteInfo) (acc : LoopAcc) (idx : Nat) (card : Card)
    (ankiId : Option Nat) : LoopAcc :=
  let summary := cardSummary card
  let ctype := cardTypeStr card
  let modelN := modelNameOf card
  let fields := cardToFields card
  match ankiId with
  | some a =>
    match lookupInfo infos a with
    | some info =>
      if fieldsMatch card info then
        -- unchanged
        { acc with
          result := { acc.result with
            unchangedCount := acc.result.unchangedCount + 1,
            details := acc.result.details ++
              [{ action := CardAction.unchanged, cardType := ctype, ankiNoteId := some a,
                 summary := summary, error := "" }] },
          newCardIds := acc.newCardIds ++ [(idx, some a)] }
      else
        -- updated (remote call only when not dry; failure is per-card)
        if dry then
          { acc with
            result := { acc.result with
              updatedCount := acc.result.updatedCount + 1,
              details := acc.result.details ++
                [{ action := CardAction.updated, cardType := ctype, ankiNoteId := some a,
                   summary := summary, error := "" }] },
            newCardIds := acc.newCardIds ++ [(idx, some a)] }
        else
          let acc1 : LoopAcc := { acc with calls := acc.calls ++ [RemoteCall.updateNote a fields tagList] }
          match env.updateNote idx with
          | Except.error e =>
            { acc1 with
              result := { acc1.result with
                errorCount := acc1.result.errorCount + 1,
                errors := acc1.result.errors ++
                  ["Update failed for " ++ Nat.repr a ++ ": " ++ e],
                details := acc1.result.details ++
                  [{ action := CardAction.error, cardType := ctype, ankiNoteId := some a,
                     summary := summary, error := e }] },
              newCardIds := acc1.newCardIds ++ [(idx, some a)] }
          | Except.ok _ =>
            { acc1 with
              result := { acc1.result with
                updatedCount := acc1.result.updatedCount + 1,
                details := acc1.result.details ++
                  [{ action := CardAction.updated, cardType := ctype, ankiNoteId := some a,
                     summary := summary, error := "" }] },
              newCardIds := acc1.newCardIds ++ [(idx, some a)] }
    | none =>
      -- id present but deleted remotely: re-create
      let acc1 : LoopAcc := { acc with
        result := { acc.result with
          deletedFromAnki := acc.result.deletedFromAnki + 1,
          details := acc.result.details ++
            [{ action := CardAction.deletedFromAnki, cardType := ctype, ankiNoteId := some a,
               summary := summary, error := "" }] } }
      if dry then { acc1 with newCardIds := acc1.newCardIds ++ [(idx, none)] }
      else
        let acc2 : LoopAcc := { acc1 with calls := acc1.calls ++ [RemoteCall.addNote deck modelN fields tagList] }
        match env.addNote idx with
        | Except.ok n => { acc2 with newCardIds := acc2.newCardIds ++ [(idx, some n)] }
        | Except.error e =>
          { acc2 with
            result := { acc2.result with
              errorCount := acc2.result.errorCount + 1,
              errors := acc2.result.errors ++ ["Re-create failed: " ++ e] },
            newCardIds := acc2.newCardIds ++ [(idx, none)] }
  | none =>
    -- new card
    if dry then
      { acc with
        result := { acc.result with
          newCount := acc.result.newCount + 1,
          details := acc.result.details ++
            [{ action := CardAction.new, cardType := ctype, ankiNoteId := none,
               summary := summary, error := "" }] },
        newCardIds := acc.newCardIds ++ [(idx, none)] }
    else
      let acc1 : LoopAcc := { acc with calls := acc.calls ++ [RemoteCall.addNote deck modelN fields tagList] }
      match env.addNote idx with
      | Except.ok n =>
        { acc1 with
          result := { acc1.result with
            newCount := acc1.result.newCount + 1,
            details := acc1.result.details ++
              [{ action := CardAction.new, cardType := ctype, ankiNoteId := some n,
                 summary := summary, error := "" }] },
          newCardIds := acc1.newCardIds ++ [(idx, some n)] }
      | Except.error e =>
        { acc1 with
          result := { acc1.result with
            errorCount := acc1.result.errorCount + 1,
            errors := acc1.result.errors ++ ["Add failed: " ++ e],
            details := acc1.result.details ++
              [{ action := CardAction.error, cardType := ctype, ankiNoteId := none,
                 summary := summary, error := e }] },
          newCardIds := acc1.newCardIds ++ [(idx, none)] }

/-- The whole per-card loop, starting at card index `i`. -/
def runLoop (env : Env) (dry : Bool) (deck : String) (tagList : List String)
    (infos : List AnkiNoteInfo) : Nat → List (Card × Option Nat) → LoopAcc → LoopAcc
  | _, [], acc => acc
  | i, c :: cs, acc => runLoop env dry deck tagList infos (i + 1) cs (syncStep env dry deck tagList infos acc i c.1 c.2)

/-! ## Orphan detection (`sync_note`, step 4) -/

/-- The outcome record appended for one orphan in the tag branch. -/
def orphanRecord (oid : Nat) : CardSyncDetail :=
  { action := CardAction.deletedFromObsidian, cardType := "unknown", ankiNoteId := some oid,
    summary := "orphan note ".data ++ Nat.toDigits 10 oid, error := "" }

/-- `sync_note` lines 422–446: query the scope tag, filter out expected
identities, then delete or tag. The whole step runs inside one
`try/except AnkiConnectError` (line 444): a failure of the query, of
`delete_notes` or of `add_tags` lands in the same handler, which appends
`Orphan detection failed: ...` to the error list — in particular a
failing `add_tags` skips the per-orphan detail loop that follows the
call, while the `deleted_from_obsidian` assignment made before the
failing call persists (the result object is mutated in place). -/
def orphanStep (env : Env) (dry delOrph : Bool) (srcTag : String) (acc : LoopAcc) : LoopAcc :=
  let acc0 : LoopAcc := { acc with calls := acc.calls ++ [RemoteCall.findNotes ("tag:" ++ srcTag)] }
  match env.findNotes with
  | Except.error e =>
    { acc0 with result := { acc0.result with
        errors := acc0.result.errors ++ ["Orphan detection failed: " ++ e] } }
  | Except.ok allIds =>
    let mdIds := acc0.newCardIds.filterMap Prod.snd
    let orphans := allIds.filter fun nid => !(mdIds.contains nid)
    if orphans.isEmpty then acc0
    else
      let acc1 : LoopAcc := { acc0 with result := { acc0.result with deletedFromObsidian := orphans.length } }
      if delOrph && !dry then
        let acc2 : LoopAcc := { acc1 with calls := acc1.calls ++ [RemoteCall.deleteNotes orphans] }
        match env.deleteNotes with
        | Except.ok _ => acc2
        | Except.error e =>
          { acc2 with result := { acc2.result with
              errors := acc2.result.errors ++ ["Orphan detection failed: " ++ e] } }
      else
        if dry then
          -- no call is made in preview mode, so nothing can raise
          { acc1 with result := { acc1.result with
              details := acc1.result.details ++ orphans.map orphanRecord } }
        else
          let acc2 : LoopAcc := { acc1 with calls := acc1.calls ++ [RemoteCall.addTags orphans "obsidian-orphan"] }
          match env.addTags with
          | Except.ok _ =>
            { acc2 with result := { acc2.result with
                details := acc2.result.details ++ orphans.map orphanRecord } }
          | Except.error e =>
            { acc2 with result := { acc2.result with
                errors := acc2.result.errors ++ ["Orphan detection failed: " ++ e] } }

/-! ## Marker rewriting (`write_ids_to_markdown`) -/

/-- The marker comment line `<!-- anki-id: NNN -->`. -/
def markerLine (aid : Nat) : Text :=
  "<!-- anki-id: ".data ++ Nat.toDigits 10 aid ++ " -->".data

/-- State of the rewrite loop over the section's lines. -/
structure RWState where
  newLines : List Text
  cardIndex : Nat
  inBlock : Bool
deriving DecidableEq

/-- One line of the rewrite loop (`write_ids_to_markdown` lines 544–583):
existing marker lines are dropped, blank lines close blocks, and the
first line of a block gets a fresh marker when the block counts as a
card block and the id map has an entry for the current card index. -/
def rwStep (idMap : Nat → Option Nat) (st : RWState) (line : Text) : RWState :=
  let stripped := stripText line
  if (ankiIdMatch stripped).isSome then st
  else if stripped.isEmpty then
    { st with inBlock := false, newLines := st.newLines ++ [line] }
  else if st.inBlock then
    { st with newLines := st.newLines ++ [line] }
  else
    let isSkippable := startsWithT ">".data stripped || isImageOnlyBlock stripped
    if !isSkippable && (startsWithT "Q:".data stripped || hasClozeMark stripped) then
      match idMap st.cardIndex with
      | some aid =>
        { newLines := st.newLines ++ [markerLine aid, line],
          cardIndex := st.cardIndex + 1, inBlock := true }
      | none =>
        { newLines := st.newLines ++ [line], cardIndex := st.cardIndex + 1, inBlock := true }
    else { st with inBlock := true, newLines := st.newLines ++ [line] }

/-- The rewrite loop over all lines of the section body. -/
def rwRun (idMap : Nat → Option Nat) (lines : List Text) : RWState :=
  lines.foldl (rwStep idMap) { newLines := [], cardIndex := 0, inBlock := false }

/-- The rewritten section body. -/
def rewriteSection (idMap : Nat → Option Nat) (body : Text) : Text :=
  joinNl (rwRun idMap (splitOnNl body)).newLines

/-- `sync.write_ids_to_markdown` as a text transform: everything before
the body (including the heading) and everything after it are spliced back
verbatim; no section means no change (the function returns without
writing). -/
def writeIdsToMarkdown (content : Text) (idMap : Nat → Option Nat) : Text :=
  match findSec content with
  | none => content
  | some (pre, body, suf) => pre ++ rewriteSection idMap body ++ suf

/-- `id_map = {idx: aid for idx, aid in new_card_ids if aid is not None}`. -/
def idMapOf (ids : List (Nat × Option Nat)) : List (Nat × Nat) :=
  ids.filterMap fun p => p.2.map fun a => (p.1, a)

/-- Dict lookup where the last written binding wins (Python dict build). -/
def lookupLast (m : List (Nat × Nat)) (k : Nat) : Option Nat :=
  ((m.filter fun p => p.1 = k).getLast?).map Prod.snd

/-! ## Image copying trigger (`sync_note`, step 6) -/

/-- Image references of one card (`images.extract_from_text` over its
texts, in the order `sync_note` collects them). -/
def cardImages : Card → List Text
  | Card.basic f b => extractFromText f ++ extractFromText b
  | Card.cloze t => extractFromText t

/-- The media-path error message appended when no path can be determined. -/
def mediaErrMsg : String :=
  "Could not determine Anki media path (configure it in settings or ensure AnkiConnect is up to date)"

/-- `sync_note` lines 471–498: when images are referenced and the run is
not a preview, resolve the media path (AnkiConnect first, config
fallback) and copy; the Bool result records whether files were copied. -/
def imageStep (env : Env) (dry : Bool) (cards : List (Card × Option Nat))
    (acc : LoopAcc) : LoopAcc × Bool :=
  let imgs := (cards.map fun p => cardImages p.1).flatten
  if !imgs.isEmpty && !dry then
    let acc1 : LoopAcc := { acc with calls := acc.calls ++ [RemoteCall.getMediaDir] }
    let mp := if env.mediaDir = "" then env.configMedia else env.mediaDir
    if mp = "" then
      ({ acc1 with result := { acc1.result with errors := acc1.result.errors ++ [mediaErrMsg] } },
       false)
    else (acc1, true)
  else (acc, false)

/-! ## `sync_note` assembled -/

/-- Everything `sync_note` returns or effects, as values: the
`SyncResult`, the final `new_card_ids`, the remote-call trace, the file
content written back (`none` when no write happens), and whether image
files were copied. -/
structure SyncOutput where
  result : SyncResult
  newCardIds : List (Nat × Option Nat)
  calls : List RemoteCall
  fileWrite : Option Text
  copiedImages : Bool
deriving DecidableEq

/-- Steps 3–6 of `sync_note` (after a successful snapshot fetch). -/
def syncMain (md : Text) (fp deck srcTag : String) (tagList : List String)
    (env : Env) (dry delOrph : Bool) (cards : List (Card × Option Nat))
    (infos : List AnkiNoteInfo) (calls0 : List RemoteCall) : SyncOutput :=
  let acc0 : LoopAcc := { result := emptyResult fp, newCardIds := [], calls := calls0 }
  let acc1 := runLoop env dry deck tagList infos 0 cards acc0
  let acc2 := orphanStep env dry delOrph srcTag acc1
  let fw := if dry then none
            else some (writeIdsToMarkdown md (lookupLast (idMapOf acc2.newCardIds)))
  let p := imageStep env dry cards acc2
  { result := p.1.result, newCardIds := p.1.newCardIds, calls := p.1.calls,
    fileWrite := fw, copiedImages := p.2 }

/-- `sync.sync_note`, as a pure function of the note's raw markdown, its
metadata (file path string, file stem, frontmatter tags, deck name), the
remote oracle and the two flags. -/
def syncNote (md : Text) (fp stem noteTags deck : String) (env : Env)
    (dry delOrph : Bool) : SyncOutput :=
  let srcTag := sourceTag stem
  let tagList := tagListOf noteTags srcTag
  let cards := parseCardsWithIds md
  if cards.isEmpty then
    { result := emptyResult fp, newCardIds := [], calls := [], fileWrite := none,
      copiedImages := false }
  else
    let knownIds := cards.filterMap Prod.snd
    if knownIds.isEmpty then
      syncMain md fp deck srcTag tagList env dry delOrph cards [] []
    else
      match env.fetch with
      | Except.error e =>
        { result := { emptyResult fp with errors := ["Failed to fetch note info: " ++ e] },
          newCardIds := [], calls := [RemoteCall.notesInfo knownIds], fileWrite := none,
          copiedImages := false }
      | Except.ok infos =>
        syncMain md fp deck srcTag tagList env dry delOrph cards infos
          [RemoteCall.notesInfo knownIds]

/-! ## Concrete scenario inputs used by the claim theorems -/

/-- The witness text that breaks idempotence: a wiki image reference whose
inner text itself contains a wiki image reference. -/
def c7Bad : Text := "![[![[a.png]]x.png]]".data

/-- A note whose section contains a malformed `Q:` block (no `A:` line,
so `parse_cards_with_ids` drops it) followed by one real card. -/
def c1Note : Text := "## Flashcards\n\nQ: no answer here\n\nQ: real\nA: answer\n".data

/-- Remote oracle for the C1 run: the single new card's create call
returns identity 500. -/
def c1Env : Env :=
  { fetch := Except.ok [], addNote := fun _ => Except.ok 500,
    updateNote := fun _ => Except.ok (), findNotes := Except.ok [],
    deleteNotes := Except.ok (), addTags := Except.ok (),
    mediaDir := "", configMedia := "" }

/-- A note with one card marked 999, plus the oracle of the scenario:
the snapshot omits 999 and the re-create call returns 1000. -/
def c3Note : Text := "## Flashcards\n\n<!-- anki-id: 999 -->\nQ: Q1\nA: A1\n".data

def c3Env : Env :=
  { fetch := Except.ok [], addNote := fun _ => Except.ok 1000,
    updateNote := fun _ => Except.ok (), findNotes := Except.ok [],
    deleteNotes := Except.ok (), addTags := Except.ok (),
    mediaDir := "", configMedia := "" }

/-- Oracle for the C5 counterexample: marker 999 absent from the
snapshot, and the re-create call fails. -/
def c5Env : Env :=
  { fetch := Except.ok [], addNote := fun _ => Except.error "boom",
    updateNote := fun _ => Except.ok (), findNotes := Except.ok [],
    deleteNotes := Except.ok (), addTags := Except.ok (),
    mediaDir := "", configMedia := "" }

/-- A note with one new card, plus the oracle of the C4 scenario: create
returns 500, the scoped query returns {500, 888}, so 888 is an orphan. -/
def c4Note : Text := "## Flashcards\n\nQ: Q1\nA: A1\n".data

def c4Env : Env :=
  { fetch := Except.ok [], addNote := fun _ => Except.ok 500,
    updateNote := fun _ => Except.ok (), findNotes := Except.ok [500, 888],
    deleteNotes := Except.ok (), addTags := Except.ok (),
    mediaDir := "", configMedia := "" }


/-! ## Lemmas about the image-syntax normalization -/

lemma obSubF_id_of_no_match :
    ∀ (f : Nat) (t : Text), hasObMatchF f t = false → obSubF f t = t := by
  intro f
  induction f with
  | zero => intro t _; cases t <;> rfl
  | succ f ih =>
    intro t h
    cases t with
    | nil => rfl
    | cons c rest =>
      simp only [hasObMatchF, Bool.or_eq_false_iff] at h
      have hn : matchObAt (c :: rest) = none :=
        Option.not_isSome_iff_eq_none.mp (by simp [h.1])
      simp only [obSubF, hn]
      rw [ih rest h.2]

lemma mdSubF_id_of_no_match :
    ∀ (f : Nat) (t : Text), hasMdMatchF f t = false → mdSubF f t = t := by
  intro f
  induction f with
  | zero => intro t _; cases t <;> rfl
  | succ f ih =>
    intro t h
    cases t with
    | nil => rfl
    | cons c rest =>
      simp only [hasMdMatchF, Bool.or_eq_false_iff] at h
      have hn : matchMdAt (c :: rest) = none :=
        Option.not_isSome_iff_eq_none.mp (by simp [h.1])
      simp only [mdSubF, hn]
      rw [ih rest h.2]

lemma obSub_id_of_no_match (t : Text) (h : hasObMatch t = false) : obSub t = t :=
  obSubF_id_of_no_match t.length t h

lemma mdSub_id_of_no_match (t : Text) (h : hasMdMatch t = false) : mdSub t = t :=
  mdSubF_id_of_no_match t.length t h

lemma nl_not_mem_replaceNl : ∀ t : Text, '\n' ∉ replaceNl t := by
  intro t
  induction t with
  | nil => simp [replaceNl]
  | cons c r ih =>
    simp only [replaceNl, List.mem_append]
    rintro (hm | hm)
    · by_cases hc : c = '\n'
      · rw [if_pos hc] at hm
        revert hm; decide
      · rw [if_neg hc] at hm
        simp only [List.mem_singleton] at hm
        exact hc hm.symm
    · exact ih hm

lemma replaceNl_id_of_no_nl : ∀ t : Text, '\n' ∉ t → replaceNl t = t := by
  intro t
  induction t with
  | nil => intro _; rfl
  | cons c r ih =>
    intro h
    simp only [List.mem_cons, not_or] at h
    have hcn : ¬(c = '\n') := fun hc => h.1 hc.symm
    simp only [replaceNl, if_neg hcn]
    rw [ih h.2, List.singleton_append]

/-! ## C7 — idempotence of the field normalization -/

/-- C7 (counterexample): `normalize(normalize(x)) = normalize(x)` fails at
`x = "![[![[a.png]]x.png]]"`: one pass produces
`<img src="![[a.png">x.png]]`, which still contains an
`OBSIDIAN_IMAGE_RE` match, so the second pass rewrites it again. -/
theorem c7_normalize_not_idempotent :
    normalizeField (normalizeField c7Bad) ≠ normalizeField c7Bad := by decide

/-- C7 (amended): the normalization of `_card_to_fields`
(image-syntax rewrite then newline→`<br>`) is idempotent on every input
whose one-pass output contains no further embedded-image match — which
covers all texts whose image references do not themselves contain image
syntax; it is not idempotent in general (see the counterexample). -/
theorem c7_normalize_idempotent_when_stable (x : Text)
    (hob : hasObMatch (normalizeField x) = false)
    (hmd : hasMdMatch (normalizeField x) = false) :
    normalizeField (normalizeField x) = normalizeField x := by
  have h1 : toAnkiImgTags (normalizeField x) = normalizeField x := by
    unfold toAnkiImgTags
    rw [obSub_id_of_no_match _ hob, mdSub_id_of_no_match _ hmd]
  show replaceNl (toAnkiImgTags (normalizeField x)) = normalizeField x
  rw [h1]
  exact replaceNl_id_of_no_nl _ (by unfold normalizeField; exact nl_not_mem_replaceNl _)

/-- Witness for C7: a representative input (an image reference plus a
newline) whose normalization is stable, evaluated concretely. -/
theorem c7_normalize_idempotent_when_stable_witness :
    normalizeField (normalizeField "![[a.png]]\nhi there".data)
      = normalizeField "![[a.png]]\nhi there".data :=
  c7_normalize_idempotent_when_stable "![[a.png]]\nhi there".data
    (by decide) (by decide)

/-! ## C8 — the fields-match comparison -/

/-- C8 (counterexample): the claim's "a key present in the field-mapper
output but missing from the remote record's fields is a mismatch" fails
for a card whose mapped values are empty: `_fields_match` compares a
missing key against the default `""` and succeeds. -/
theorem c8_missing_key_not_always_mismatch :
    fieldsMatch (Card.basic [] [])
        { noteId := 1, modelName := "Basic", tags := [], fields := [], mod := 0 } = true ∧
    fieldsMatchSpec (Card.basic [] [])
        { noteId := 1, modelName := "Basic", tags := [], fields := [], mod := 0 } = false := by
  decide

/-- C8 (amended): `_fields_match` returns true iff every key of the
field-mapper output equals the remote value looked up with default `""`;
a missing remote key therefore compares as the empty string, which is a
mismatch exactly when the expected value is nonempty — so the spec's
"missing remote key ⇒ mismatch" reading coincides with the code
whenever all mapped field values are nonempty. -/
theorem c8_fields_match_amended (card : Card) (info : AnkiNoteInfo) :
    (fieldsMatch card info = true ↔
      ∀ kv ∈ cardToFields card, getFieldD info.fields kv.1 = kv.2) ∧
    ((∀ kv ∈ cardToFields card, kv.2 ≠ ([] : Text)) →
      (fieldsMatch card info = true ↔ fieldsMatchSpec card info = true)) := by
  constructor
  · simp [fieldsMatch, List.all_eq_true]
  · intro hne
    simp only [fieldsMatch, fieldsMatchSpec, List.all_eq_true]
    constructor
    · intro h kv hkv
      have := h kv hkv
      simp only [decide_eq_true_eq] at this
      cases hl : info.fields.lookup kv.1 with
      | some v =>
        simp only [hl]
        simp only [getFieldD, hl] at this
        simpa using this
      | none =>
        exfalso
        simp only [getFieldD, hl] at this
        exact hne kv hkv this.symm
    · intro h kv hkv
      have := h kv hkv
      cases hl : info.fields.lookup kv.1 with
      | some v =>
        simp only [hl] at this
        simp only [decide_eq_true_eq] at this ⊢
        simp only [getFieldD, hl]
        exact this
      | none =>
        exfalso
        simp only [hl] at this
        exact Bool.false_ne_true this

/-- Witness for C8's amended theorem at a concrete card and record with
nonempty field values. -/
theorem c8_fields_match_amended_witness :
    fieldsMatch (Card.basic "Q".data "A".data)
        { noteId := 1, modelName := "Basic", tags := [],
          fields := [("Front", "Q".data), ("Back", "A".data)], mod := 0 } = true ↔
    fieldsMatchSpec (Card.basic "Q".data "A".data)
        { noteId := 1, modelName := "Basic", tags := [],
          fields := [("Front", "Q".data), ("Back", "A".data)], mod := 0 } = true :=
  (c8_fields_match_amended _ _).2 (by decide)

/-! ## C9 — frame property of `write_ids_to_markdown` -/

lemma splitBody_append : ∀ (f : Nat) (t : Text), (splitBody f t).1 ++ (splitBody f t).2 = t := by
  intro f
  induction f with
  | zero =>
    intro t
    simp only [splitBody]
    split <;> simp
  | succ f ih =>
    intro t
    simp only [splitBody]
    split
    · simp
    · cases hd : t.dropWhile (· ≠ '\n') with
      | nil => simp
      | cons c rest =>
        have hw : t.takeWhile (· ≠ '\n') ++ t.dropWhile (· ≠ '\n') = t :=
          List.takeWhile_append_dropWhile _ _
        calc (t.takeWhile (· ≠ '\n') ++ c :: (splitBody f rest).1) ++ (splitBody f rest).2
            = t.takeWhile (· ≠ '\n') ++ c :: ((splitBody f rest).1 ++ (splitBody f rest).2) := by
              simp [List.append_assoc]
          _ = t.takeWhile (· ≠ '\n') ++ c :: rest := by rw [ih rest]
          _ = t := by rw [← hd, hw]

lemma findSecAux_append :
    ∀ (f : Nat) (t pre body suf : Text),
      findSecAux f t = some (pre, body, suf) → t = pre ++ body ++ suf := by
  intro f
  induction f with
  | zero =>
    intro t pre body suf h
    simp only [findSecAux] at h
    cases hm : matchHeaderLen t with
    | none => rw [hm] at h; exact absurd h (by simp)
    | some hl =>
      rw [hm] at h
      simp only [Option.some.injEq, Prod.mk.injEq] at h
      obtain ⟨h1, h2, h3⟩ := h
      subst h1
      have hsb := splitBody_append (t.drop hl).length (t.drop hl)
      rw [h2, h3] at hsb
      rw [List.append_assoc, hsb, List.take_append_drop]
  | succ f ih =>
    intro t pre body suf h
    simp only [findSecAux] at h
    cases hm : matchHeaderLen t with
    | some hl =>
      rw [hm] at h
      simp only [Option.some.injEq, Prod.mk.injEq] at h
      obtain ⟨h1, h2, h3⟩ := h
      subst h1
      have hsb := splitBody_append (t.drop hl).length (t.drop hl)
      rw [h2, h3] at hsb
      rw [List.append_assoc, hsb, List.take_append_drop]
    | none =>
      rw [hm] at h
      dsimp only at h
      cases hd : t.dropWhile (· ≠ '\n') with
      | nil =>
        rw [hd] at h
        exact absurd h (by simp)
      | cons c rest =>
        rw [hd] at h
        dsimp only at h
        cases hr : findSecAux f rest with
        | none => rw [hr] at h; exact absurd h (by simp)
        | some trip =>
          obtain ⟨p', b', s'⟩ := trip
          rw [hr] at h
          simp only [Option.some.injEq, Prod.mk.injEq] at h
          obtain ⟨h1, h2, h3⟩ := h
          have hrec := ih rest p' b' s' hr
          have hw : t.takeWhile (· ≠ '\n') ++ t.dropWhile (· ≠ '\n') = t :=
            List.takeWhile_append_dropWhile _ _
          subst h1 h2 h3
          calc t = t.takeWhile (· ≠ '\n') ++ c :: rest := by rw [← hd, hw]
            _ = t.takeWhile (· ≠ '\n') ++ c :: (p' ++ b' ++ s') := by rw [← hrec]
            _ = (t.takeWhile (· ≠ '\n') ++ c :: p') ++ b' ++ s' := by
                simp [List.append_assoc]

lemma findSec_append {t pre body suf : Text} (h : findSec t = some (pre, body, suf)) :
    t = pre ++ body ++ suf :=
  findSecAux_append t.length t pre body suf h

/-- C9 (confirmed): `write_ids_to_markdown` splices the rewritten section
body between the unchanged text up to and including the section heading
and the unchanged text from the next top-level heading on; when the
section cannot be located it changes nothing. -/
theorem c9_write_ids_frame (content : Text) (idMap : Nat → Option Nat) :
    (findSec content = none → writeIdsToMarkdown content idMap = content) ∧
    ∀ pre body suf, findSec content = some (pre, body, suf) →
      content = pre ++ body ++ suf ∧
      writeIdsToMarkdown content idMap = pre ++ rewriteSection idMap body ++ suf := by
  constructor
  · intro h
    simp [writeIdsToMarkdown, h]
  · intro pre body suf h
    exact ⟨findSec_append h, by simp [writeIdsToMarkdown, h]⟩

/-- Witness for C9 at a note with text before the section and a
references section after it. -/
theorem c9_write_ids_frame_witness :
    "# T\n\nnotes\n\n## Flashcards\n\nQ: Q\nA: A\n\n## R\nx".data
        = "# T\n\nnotes\n\n## Flashcards\n\n".data ++ "Q: Q\nA: A\n\n".data ++ "## R\nx".data ∧
    writeIdsToMarkdown "# T\n\nnotes\n\n## Flashcards\n\nQ: Q\nA: A\n\n## R\nx".data
        (lookupLast [(0, 42)])
      = "# T\n\nnotes\n\n## Flashcards\n\n".data
          ++ rewriteSection (lookupLast [(0, 42)]) "Q: Q\nA: A\n\n".data
          ++ "## R\nx".data :=
  (c9_write_ids_frame _ _).2 _ _ _ (by decide)

/-! ## C1 — marker/parse alignment of the rewriter -/

/-- C1 (code bug): `parse_cards_with_ids` emits exactly one card (the
`Q: real` block — the answerless `Q:` block parses to nothing), yet the
rewriter's card-index counter in `write_ids_to_markdown` increments at
both `Q:`-led blocks, so after the sync the identity 500 created for the
real card is written immediately before the malformed non-card block.
The docstring's promised safety abort on a block/card count mismatch is
not implemented. -/
theorem c1_marker_misalignment_bug :
    parseCardsWithIds c1Note = [(Card.basic "real".data "answer".data, none)] ∧
    (rwRun (lookupLast [(0, 500)])
        (splitOnNl "Q: no answer here\n\nQ: real\nA: answer\n".data)).cardIndex = 2 ∧
    (syncNote c1Note "f" "n" "" "D" c1Env false false).fileWrite
      = some "## Flashcards\n\n<!-- anki-id: 500 -->\nQ: no answer here\n\nQ: real\nA: answer\n".data := by
  refine ⟨by decide, by decide, by decide⟩

/-! ## Per-card loop lemmas -/

lemma syncStep_newCardIds (env : Env) (dry : Bool) (deck : String) (tagList : List String)
    (infos : List AnkiNoteInfo) (acc : LoopAcc) (idx : Nat) (card : Card) (aid : Option Nat) :
    ∃ o, (syncStep env dry deck tagList infos acc idx card aid).newCardIds
      = acc.newCardIds ++ [(idx, o)] := by
  unfold syncStep
  cases aid with
  | none =>
    cases dry with
    | true => exact ⟨none, by simp⟩
    | false =>
      cases h : env.addNote idx with
      | ok n => exact ⟨some n, by simp [h]⟩
      | error e => exact ⟨none, by simp [h]⟩
  | some a =>
    cases hl : lookupInfo infos a with
    | some info =>
      cases hfm : fieldsMatch card info with
      | true => exact ⟨some a, by simp [hl, hfm]⟩
      | false =>
        cases dry with
        | true => exact ⟨some a, by simp [hl, hfm]⟩
        | false =>
          cases h : env.updateNote idx with
          | ok u => exact ⟨some a, by simp [hl, hfm, h]⟩
          | error e => exact ⟨some a, by simp [hl, hfm, h]⟩
    | none =>
      cases dry with
      | true => exact ⟨none, by simp [hl]⟩
      | false =>
        cases h : env.addNote idx with
        | ok n => exact ⟨some n, by simp [hl, h]⟩
        | error e => exact ⟨none, by simp [hl, h]⟩

lemma runLoop_map_fst (env : Env) (dry : Bool) (deck : String) (tagList : List String)
    (infos : List AnkiNoteInfo) :
    ∀ (cs : List (Card × Option Nat)) (i : Nat) (acc : LoopAcc),
      (runLoop env dry deck tagList infos i cs acc).newCardIds.map Prod.fst
        = acc.newCardIds.map Prod.fst ++ List.range' i cs.length := by
  intro cs
  induction cs with
  | nil => intro i acc; simp [runLoop]
  | cons c cs ih =>
    intro i acc
    simp only [runLoop]
    rw [ih]
    obtain ⟨o, ho⟩ := syncStep_newCardIds env dry deck tagList infos acc i c.1 c.2
    rw [ho]
    rw [List.length_cons, List.range'_succ i cs.length 1]
    simp

lemma orphanStep_newCardIds (env : Env) (dry delOrph : Bool) (srcTag : String) (acc : LoopAcc) :
    (orphanStep env dry delOrph srcTag acc).newCardIds = acc.newCardIds := by
  unfold orphanStep
  cases env.findNotes with
  | error e => rfl
  | ok allIds =>
    dsimp only
    split
    · rfl
    · split
      · cases env.deleteNotes <;> rfl
      · split
        · rfl
        · cases env.addTags <;> rfl

lemma imageStep_newCardIds (env : Env) (dry : Bool) (cards : List (Card × Option Nat))
    (acc : LoopAcc) :
    (imageStep env dry cards acc).1.newCardIds = acc.newCardIds := by
  unfold imageStep
  dsimp only
  split_ifs <;> rfl

lemma idMapOf_fst_mem {ids : List (Nat × Option Nat)} {p : Nat × Nat} (h : p ∈ idMapOf ids) :
    p.1 ∈ ids.map Prod.fst := by
  unfold idMapOf at h
  obtain ⟨q, hq, hf⟩ := List.mem_filterMap.mp h
  cases ho : q.2 with
  | none => rw [ho] at hf; simp at hf
  | some a =>
    rw [ho] at hf
    simp only [Option.map_some', Option.some.injEq] at hf
    exact List.mem_map.mpr ⟨q, hq, by rw [← hf]⟩

lemma syncMain_newCardIds_map_fst (md : Text) (fp deck srcTag : String)
    (tagList : List String) (env : Env) (dry delOrph : Bool)
    (cards : List (Card × Option Nat)) (infos : List AnkiNoteInfo)
    (calls0 : List RemoteCall) :
    (syncMain md fp deck srcTag tagList env dry delOrph cards infos calls0).newCardIds.map Prod.fst
      = List.range cards.length := by
  unfold syncMain
  dsimp only
  rw [imageStep_newCardIds, orphanStep_newCardIds, runLoop_map_fst]
  simp [List.range_eq_range']

/-- C10 (confirmed): after the per-card loop every parsed card has
contributed exactly one entry to `new_card_ids`, in sequence order, with
its index as first component — so the rewriter's id map only maps valid
card indices. (The loop is reached whenever the snapshot fetch succeeds
or is skipped because no marker is present.) -/
theorem c10_loop_index_invariant (md : Text) (fp stem noteTags deck : String) (env : Env)
    (dry delOrph : Bool)
    (hfetch : (parseCardsWithIds md).filterMap Prod.snd = []
              ∨ ∃ infos, env.fetch = Except.ok infos) :
    (syncNote md fp stem noteTags deck env dry delOrph).newCardIds.map Prod.fst
        = List.range (parseCardsWithIds md).length ∧
    ∀ p ∈ idMapOf (syncNote md fp stem noteTags deck env dry delOrph).newCardIds,
      p.1 < (parseCardsWithIds md).length := by
  have hmain :
      (syncNote md fp stem noteTags deck env dry delOrph).newCardIds.map Prod.fst
        = List.range (parseCardsWithIds md).length := by
    unfold syncNote
    dsimp only
    by_cases hc : (parseCardsWithIds md).isEmpty
    · rw [if_pos hc]
      rw [List.isEmpty_iff] at hc
      simp [hc]
    · rw [if_neg hc]
      by_cases hk : ((parseCardsWithIds md).filterMap Prod.snd).isEmpty
      · rw [if_pos hk]
        exact syncMain_newCardIds_map_fst ..
      · rw [if_neg hk]
        rcases hfetch with hfetch | ⟨infos, hf⟩
        · exact absurd (List.isEmpty_iff.mpr hfetch) hk
        · rw [hf]
          exact syncMain_newCardIds_map_fst ..
  refine ⟨hmain, ?_⟩
  intro p hp
  have := idMapOf_fst_mem hp
  rw [hmain] at this
  exact List.mem_range.mp this

/-- Witness for C10: a two-card note, fetch succeeding with an empty
snapshot. -/
theorem c10_loop_index_invariant_witness :
    (syncNote "## Flashcards\n\n<!-- anki-id: 7 -->\nQ: a\nA: b\n\nQ: c\nA: d\n".data
        "f" "n" "" "D" c1Env false false).newCardIds.map Prod.fst
      = List.range
          (parseCardsWithIds
            "## Flashcards\n\n<!-- anki-id: 7 -->\nQ: a\nA: b\n\nQ: c\nA: d\n".data).length ∧
    ((0, 500) ∈ idMapOf (syncNote "## Flashcards\n\n<!-- anki-id: 7 -->\nQ: a\nA: b\n\nQ: c\nA: d\n".data
        "f" "n" "" "D" c1Env false false).newCardIds →
      (0 : Nat) < (parseCardsWithIds
          "## Flashcards\n\n<!-- anki-id: 7 -->\nQ: a\nA: b\n\nQ: c\nA: d\n".data).length) := by
  refine ⟨(c10_loop_index_invariant _ _ _ _ _ _ _ _ (Or.inr ⟨[], rfl⟩)).1, ?_⟩
  intro hp
  exact (c10_loop_index_invariant "## Flashcards\n\n<!-- anki-id: 7 -->\nQ: a\nA: b\n\nQ: c\nA: d\n".data
    "f" "n" "" "D" c1Env false false (Or.inr ⟨[], rfl⟩)).2 (0, 500) hp

/-! ## C6 — fatal batch-snapshot failure -/

/-- C6 (confirmed): when markers exist and the batch `notes_info` fetch
fails, `sync_note` records the failure and returns at once: all counts
zero, no per-card outcome records, the single fetch-failure message in
the error list, no remote mutation, no file write, no image copy. -/
theorem c6_fetch_failure_early_return (md : Text) (fp stem noteTags deck : String)
    (env : Env) (dry delOrph : Bool) (e : String)
    (hk : (parseCardsWithIds md).filterMap Prod.snd ≠ [])
    (he : env.fetch = Except.error e) :
    (syncNote md fp stem noteTags deck env dry delOrph).result.newCount = 0 ∧
    (syncNote md fp stem noteTags deck env dry delOrph).result.updatedCount = 0 ∧
    (syncNote md fp stem noteTags deck env dry delOrph).result.unchangedCount = 0 ∧
    (syncNote md fp stem noteTags deck env dry delOrph).result.deletedFromObsidian = 0 ∧
    (syncNote md fp stem noteTags deck env dry delOrph).result.deletedFromAnki = 0 ∧
    (syncNote md fp stem noteTags deck env dry delOrph).result.details = [] ∧
    (syncNote md fp stem noteTags deck env dry delOrph).result.errors
      = ["Failed to fetch note info: " ++ e] ∧
    (syncNote md fp stem noteTags deck env dry delOrph).calls.filter RemoteCall.isMutation = [] ∧
    (syncNote md fp stem noteTags deck env dry delOrph).fileWrite = none ∧
    (syncNote md fp stem noteTags deck env dry delOrph).copiedImages = false := by
  have hc : ¬((parseCardsWithIds md).isEmpty = true) := by
    intro h
    rw [List.isEmpty_iff] at h
    exact hk (by rw [h]; rfl)
  have hki : ¬(((parseCardsWithIds md).filterMap Prod.snd).isEmpty = true) := by
    intro h
    exact hk (List.isEmpty_iff.mp h)
  unfold syncNote
  dsimp only
  rw [if_neg hc, if_neg hki, he]
  simp [emptyResult, RemoteCall.isMutation, List.filter]

/-- Witness for C6: one marked card, fetch failing with message `down`. -/
theorem c6_fetch_failure_early_return_witness :
    (syncNote "## Flashcards\n\n<!-- anki-id: 100 -->\nQ: Q1\nA: A1\n".data "f" "n" "" "D"
        { fetch := Except.error "down", addNote := fun _ => Except.ok 1,
          updateNote := fun _ => Except.ok (), findNotes := Except.ok [],
          deleteNotes := Except.ok (), addTags := Except.ok (),
          mediaDir := "", configMedia := "" } false false).result.errors
      = ["Failed to fetch note info: down"] ∧
    (syncNote "## Flashcards\n\n<!-- anki-id: 100 -->\nQ: Q1\nA: A1\n".data "f" "n" "" "D"
        { fetch := Except.error "down", addNote := fun _ => Except.ok 1,
          updateNote := fun _ => Except.ok (), findNotes := Except.ok [],
          deleteNotes := Except.ok (), addTags := Except.ok (),
          mediaDir := "", configMedia := "" } false false).fileWrite = none := by
  have h := c6_fetch_failure_early_return
    "## Flashcards\n\n<!-- anki-id: 100 -->\nQ: Q1\nA: A1\n".data "f" "n" "" "D"
    { fetch := Except.error "down", addNote := fun _ => Except.ok 1,
      updateNote := fun _ => Except.ok (), findNotes := Except.ok [],
      deleteNotes := Except.ok (), addTags := Except.ok (),
      mediaDir := "", configMedia := "" } false false "down" (by decide) rfl
  exact ⟨h.2.2.2.2.2.2.1, h.2.2.2.2.2.2.2.2.1⟩

/-! ## C3 — marker present but identity absent from the snapshot -/

/-- C3 (counterexample): in the remote-deletion scenario the sync does
re-create the record (exactly one mutation call, an `addNote`; the new
identity 1000 replaces the stale 999 marker in the written file) and
increments `deleted_from_anki` — but `new_count` stays 0: the re-creation
is NOT counted toward new creation, contradicting the claim. -/
theorem c3_recreation_not_counted_as_new :
    (syncNote c3Note "f" "n" "" "D" c3Env false false).result.deletedFromAnki = 1 ∧
    (syncNote c3Note "f" "n" "" "D" c3Env false false).calls.filter RemoteCall.isMutation
      = [RemoteCall.addNote "D" "Basic" [("Front", "Q1".data), ("Back", "A1".data)]
          ["obsidian-src::n"]] ∧
    (syncNote c3Note "f" "n" "" "D" c3Env false false).fileWrite
      = some "## Flashcards\n\n<!-- anki-id: 1000 -->\nQ: Q1\nA: A1\n".data ∧
    (syncNote c3Note "f" "n" "" "D" c3Env false false).result.newCount = 0 := by
  refine ⟨by decide, by decide, by decide, by decide⟩

/-- C3 (amended): for every card whose marker is present but absent from
the batch snapshot, a non-preview sync increments `deleted_from_anki` by
one, appends a DELETED_FROM_ANKI outcome record, issues the create call
and records the returned fresh identity for the card's index (which the
rewriter then writes in place of the stale marker, as the counterexample
run shows concretely) — but the re-creation is NOT counted toward new
creation: `new_count` is left unchanged and no NEW record is appended. -/
theorem c3_remote_deletion_recreates_uncounted (env : Env) (deck : String)
    (tagList : List String) (infos : List AnkiNoteInfo) (acc : LoopAcc)
    (idx : Nat) (card : Card) (a n : Nat)
    (hmiss : lookupInfo infos a = none)
    (hadd : env.addNote idx = Except.ok n) :
    syncStep env false deck tagList infos acc idx card (some a) =
      { result := { acc.result with
          deletedFromAnki := acc.result.deletedFromAnki + 1,
          details := acc.result.details ++
            [{ action := CardAction.deletedFromAnki, cardType := cardTypeStr card,
               ankiNoteId := some a, summary := cardSummary card, error := "" }] },
        newCardIds := acc.newCardIds ++ [(idx, some n)],
        calls := acc.calls ++
          [RemoteCall.addNote deck (modelNameOf card) (cardToFields card) tagList] } ∧
    (syncStep env false deck tagList infos acc idx card (some a)).result.newCount
      = acc.result.newCount := by
  constructor
  · simp [syncStep, hmiss, hadd]
  · simp [syncStep, hmiss, hadd]

/-- Witness for C3's amended theorem at concrete inputs. -/
theorem c3_remote_deletion_recreates_uncounted_witness :
    syncStep c3Env false "D" ["obsidian-src::n"] [] { result := emptyResult "f", newCardIds := [], calls := [] }
        0 (Card.basic "Q1".data "A1".data) (some 999) =
      { result := { emptyResult "f" with
          deletedFromAnki := 1,
          details := [{ action := CardAction.deletedFromAnki, cardType := "basic",
                        ankiNoteId := some 999, summary := "Q1".data, error := "" }] },
        newCardIds := [(0, some 1000)],
        calls := [RemoteCall.addNote "D" "Basic" [("Front", "Q1".data), ("Back", "A1".data)]
          ["obsidian-src::n"]] } ∧
    (syncStep c3Env false "D" ["obsidian-src::n"] [] { result := emptyResult "f", newCardIds := [], calls := [] }
        0 (Card.basic "Q1".data "A1".data) (some 999)).result.newCount = 0 := by
  have h := c3_remote_deletion_recreates_uncounted c3Env "D" ["obsidian-src::n"] []
    { result := emptyResult "f", newCardIds := [], calls := [] }
    0 (Card.basic "Q1".data "A1".data) 999 1000 (by decide) rfl
  refine ⟨?_, h.2⟩
  rw [h.1]
  decide

/-! ## C5 — per-card failure capture -/

/-- C5 (counterexample): a re-create failure increments the error count
and records the message in the error list, but the per-card outcome list
holds only the DELETED_FROM_ANKI record — no ERROR record is appended for
that card, contradicting the claim's "captured as a per-card ERROR
outcome record" for the re-create branch. -/
theorem c5_recreate_failure_has_no_error_record :
    (syncNote c3Note "f" "n" "" "D" c5Env false false).result.errorCount = 1 ∧
    (syncNote c3Note "f" "n" "" "D" c5Env false false).result.errors
      = ["Re-create failed: boom"] ∧
    ((syncNote c3Note "f" "n" "" "D" c5Env false false).result.details.filter
        fun d => d.action = CardAction.error).length = 0 ∧
    (syncNote c3Note "f" "n" "" "D" c5Env false false).result.details
      = [{ action := CardAction.deletedFromAnki, cardType := "basic",
           ankiNoteId := some 999, summary := "Q1".data, error := "" }] := by
  refine ⟨by decide, by decide, by decide, by decide⟩

/-- C5 (amended): a create or update failure on one card is captured as a
per-card ERROR outcome record carrying the error message, the error count
increments, and the loop continues; a re-create failure also increments
the error count and records its message in the error list but appends no
per-card ERROR record (only the DELETED_FROM_ANKI record added before the
attempt). In every case exactly one `new_card_ids` entry is appended and
the loop proceeds to the next card. -/
theorem c5_per_card_failures (env : Env) (deck : String) (tagList : List String)
    (infos : List AnkiNoteInfo) (acc : LoopAcc) (idx : Nat) (card : Card) :
    (∀ a info e, lookupInfo infos a = some info → fieldsMatch card info = false →
      env.updateNote idx = Except.error e →
      syncStep env false deck tagList infos acc idx card (some a) =
        { result := { acc.result with
            errorCount := acc.result.errorCount + 1,
            errors := acc.result.errors ++ ["Update failed for " ++ Nat.repr a ++ ": " ++ e],
            details := acc.result.details ++
              [{ action := CardAction.error, cardType := cardTypeStr card,
                 ankiNoteId := some a, summary := cardSummary card, error := e }] },
          newCardIds := acc.newCardIds ++ [(idx, some a)],
          calls := acc.calls ++ [RemoteCall.updateNote a (cardToFields card) tagList] }) ∧
    (∀ e, env.addNote idx = Except.error e →
      syncStep env false deck tagList infos acc idx card none =
        { result := { acc.result with
            errorCount := acc.result.errorCount + 1,
            errors := acc.result.errors ++ ["Add failed: " ++ e],
            details := acc.result.details ++
              [{ action := CardAction.error, cardType := cardTypeStr card,
                 ankiNoteId := none, summary := cardSummary card, error := e }] },
          newCardIds := acc.newCardIds ++ [(idx, none)],
          calls := acc.calls ++
            [RemoteCall.addNote deck (modelNameOf card) (cardToFields card) tagList] }) ∧
    (∀ a e, lookupInfo infos a = none → env.addNote idx = Except.error e →
      syncStep env false deck tagList infos acc idx card (some a) =
        { result := { acc.result with
            deletedFromAnki := acc.result.deletedFromAnki + 1,
            errorCount := acc.result.errorCount + 1,
            errors := acc.result.errors ++ ["Re-create failed: " ++ e],
            details := acc.result.details ++
              [{ action := CardAction.deletedFromAnki, cardType := cardTypeStr card,
                 ankiNoteId := some a, summary := cardSummary card, error := "" }] },
          newCardIds := acc.newCardIds ++ [(idx, none)],
          calls := acc.calls ++
            [RemoteCall.addNote deck (modelNameOf card) (cardToFields card) tagList] }) ∧
    (∀ (dry : Bool) (i : Nat) (c : Card × Option Nat) (cs : List (Card × Option Nat))
        (acc2 : LoopAcc),
      runLoop env dry deck tagList infos i (c :: cs) acc2
        = runLoop env dry deck tagList infos (i + 1) cs
            (syncStep env dry deck tagList infos acc2 i c.1 c.2)) := by
  refine ⟨?_, ?_, ?_, ?_⟩
  · intro a info e h1 h2 h3
    simp [syncStep, h1, h2, h3]
  · intro e h
    simp [syncStep, h]
  · intro a e h1 h2
    simp [syncStep, h1, h2]
  · intro dry i c cs acc2
    rfl

/-- Witness for C5's amended theorem: the re-create-failure branch at
concrete inputs. -/
theorem c5_per_card_failures_witness :
    syncStep c5Env false "D" ["obsidian-src::n"] []
        { result := emptyResult "f", newCardIds := [], calls := [] }
        0 (Card.basic "Q1".data "A1".data) (some 999) =
      { result := { emptyResult "f" with
          deletedFromAnki := 1,
          errorCount := 1,
          errors := ["Re-create failed: boom"],
          details := [{ action := CardAction.deletedFromAnki, cardType := "basic",
                        ankiNoteId := some 999, summary := "Q1".data, error := "" }] },
        newCardIds := [(0, none)],
        calls := [RemoteCall.addNote "D" "Basic" [("Front", "Q1".data), ("Back", "A1".data)]
          ["obsidian-src::n"]] } := by
  have h := (c5_per_card_failures c5Env "D" ["obsidian-src::n"] []
    { result := emptyResult "f", newCardIds := [], calls := [] }
    0 (Card.basic "Q1".data "A1".data)).2.2.1 999 "boom" (by decide) rfl
  rw [h]
  decide

/-! ## Details-shape lemmas for the loop and the post-steps -/

lemma syncStep_details (env : Env) (dry : Bool) (deck : String) (tagList : List String)
    (infos : List AnkiNoteInfo) (acc : LoopAcc) (idx : Nat) (card : Card) (aid : Option Nat) :
    ∃ ds, (syncStep env dry deck tagList infos acc idx card aid).result.details
        = acc.result.details ++ ds ∧
      ∀ d ∈ ds, d.action ≠ CardAction.deletedFromObsidian := by
  unfold syncStep
  cases aid with
  | none =>
    cases dry with
    | true =>
      exact ⟨[{ action := CardAction.new, cardType := cardTypeStr card, ankiNoteId := none,
                summary := cardSummary card, error := "" }], by simp, by simp⟩
    | false =>
      cases h : env.addNote idx with
      | ok n =>
        exact ⟨[{ action := CardAction.new, cardType := cardTypeStr card, ankiNoteId := some n,
                  summary := cardSummary card, error := "" }], by simp [h], by simp⟩
      | error e =>
        exact ⟨[{ action := CardAction.error, cardType := cardTypeStr card, ankiNoteId := none,
                  summary := cardSummary card, error := e }], by simp [h], by simp⟩
  | some a =>
    cases hl : lookupInfo infos a with
    | some info =>
      cases hfm : fieldsMatch card info with
      | true =>
        exact ⟨[{ action := CardAction.unchanged, cardType := cardTypeStr card,
                  ankiNoteId := some a, summary := cardSummary card, error := "" }],
               by simp [hl, hfm], by simp⟩
      | false =>
        cases dry with
        | true =>
          exact ⟨[{ action := CardAction.updated, cardType := cardTypeStr card,
                    ankiNoteId := some a, summary := cardSummary card, error := "" }],
                 by simp [hl, hfm], by simp⟩
        | false =>
          cases h : env.updateNote idx with
          | ok u =>
            exact ⟨[{ action := CardAction.updated, cardType := cardTypeStr card,
                      ankiNoteId := some a, summary := cardSummary card, error := "" }],
                   by simp [hl, hfm, h], by simp⟩
          | error e =>
            exact ⟨[{ action := CardAction.error, cardType := cardTypeStr card,
                      ankiNoteId := some a, summary := cardSummary card, error := e }],
                   by simp [hl, hfm, h], by simp⟩
    | none =>
      cases dry with
      | true =>
        exact ⟨[{ action := CardAction.deletedFromAnki, cardType := cardTypeStr card,
                  ankiNoteId := some a, summary := cardSummary card, error := "" }],
               by simp [hl], by simp⟩
      | false =>
        cases h : env.addNote idx with
        | ok n =>
          exact ⟨[{ action := CardAction.deletedFromAnki, cardType := cardTypeStr card,
                    ankiNoteId := some a, summary := cardSummary card, error := "" }],
                 by simp [hl, h], by simp⟩
        | error e =>
          exact ⟨[{ action := CardAction.deletedFromAnki, cardType := cardTypeStr card,
                    ankiNoteId := some a, summary := cardSummary card, error := "" }],
                 by simp [hl, h], by simp⟩

lemma runLoop_details (env : Env) (dry : Bool) (deck : String) (tagList : List String)
    (infos : List AnkiNoteInfo) :
    ∀ (cs : List (Card × Option Nat)) (i : Nat) (acc : LoopAcc),
      ∃ ds, (runLoop env dry deck tagList infos i cs acc).result.details
          = acc.result.details ++ ds ∧
        ∀ d ∈ ds, d.action ≠ CardAction.deletedFromObsidian := by
  intro cs
  induction cs with
  | nil => intro i acc; exact ⟨[], by simp [runLoop], by simp⟩
  | cons c cs ih =>
    intro i acc
    obtain ⟨ds1, hds1, hp1⟩ := syncStep_details env dry deck tagList infos acc i c.1 c.2
    obtain ⟨ds2, hds2, hp2⟩ := ih (i + 1) (syncStep env dry deck tagList infos acc i c.1 c.2)
    refine ⟨ds1 ++ ds2, ?_, ?_⟩
    · simp only [runLoop]
      rw [hds2, hds1, List.append_assoc]
    · intro d hd
      rcases List.mem_append.mp hd with h | h
      · exact hp1 d h
      · exact hp2 d h

lemma imageStep_details (env : Env) (dry : Bool) (cards : List (Card × Option Nat))
    (acc : LoopAcc) :
    (imageStep env dry cards acc).1.result.details = acc.result.details := by
  unfold imageStep
  dsimp only
  split_ifs <;> rfl

lemma contains_eq_decide_mem (l : List Nat) (a : Nat) : l.contains a = decide (a ∈ l) := by
  by_cases h : a ∈ l <;> simp [h, List.contains_eq_any_beq]

lemma syncNote_eq_syncMain (md : Text) (fp stem noteTags deck : String) (env : Env)
    (dry delOrph : Bool)
    (hc : ¬((parseCardsWithIds md).isEmpty = true))
    (hfetch : (parseCardsWithIds md).filterMap Prod.snd = []
              ∨ ∃ infos, env.fetch = Except.ok infos) :
    ∃ infos calls0,
      syncNote md fp stem noteTags deck env dry delOrph
        = syncMain md fp deck (sourceTag stem) (tagListOf noteTags (sourceTag stem)) env
            dry delOrph (parseCardsWithIds md) infos calls0 := by
  unfold syncNote
  dsimp only
  rw [if_neg hc]
  by_cases hk : ((parseCardsWithIds md).filterMap Prod.snd).isEmpty = true
  · rw [if_pos hk]
    exact ⟨[], [], rfl⟩
  · rw [if_neg hk]
    rcases hfetch with hf | ⟨infos, hf⟩
    · exact absurd (by rw [hf]; rfl) hk
    · rw [hf]
      exact ⟨infos, _, rfl⟩

lemma syncMain_details (md : Text) (fp deck srcTag : String) (tagList : List String)
    (env : Env) (dry delOrph : Bool) (cards : List (Card × Option Nat))
    (infos : List AnkiNoteInfo) (calls0 : List RemoteCall) :
    (syncMain md fp deck srcTag tagList env dry delOrph cards infos calls0).result.details
      = (orphanStep env dry delOrph srcTag
          (runLoop env dry deck tagList infos 0 cards
            { result := emptyResult fp, newCardIds := [], calls := calls0 })).result.details := by
  unfold syncMain
  dsimp only
  rw [imageStep_details]

lemma syncMain_newCardIds (md : Text) (fp deck srcTag : String) (tagList : List String)
    (env : Env) (dry delOrph : Bool) (cards : List (Card × Option Nat))
    (infos : List AnkiNoteInfo) (calls0 : List RemoteCall) :
    (syncMain md fp deck srcTag tagList env dry delOrph cards infos calls0).newCardIds
      = (runLoop env dry deck tagList infos 0 cards
          { result := emptyResult fp, newCardIds := [], calls := calls0 }).newCardIds := by
  unfold syncMain
  dsimp only
  rw [imageStep_newCardIds, orphanStep_newCardIds]

/-! ## C4 — orphan outcome records -/

/-- C4 (counterexample): with delete-orphans enabled in a non-preview
run, orphan 888 is deleted and counted, but it appears in ZERO orphan
outcome records — the claim's "appears exactly once ... regardless of
whether the delete-orphans policy or the tag-orphan policy fires" fails
for the delete branch, whose code path appends no detail records. -/
theorem c4_delete_policy_drops_orphan_records :
    (syncNote c4Note "f" "n" "" "D" c4Env false true).result.deletedFromObsidian = 1 ∧
    (syncNote c4Note "f" "n" "" "D" c4Env false true).calls
      = [RemoteCall.addNote "D" "Basic" [("Front", "Q1".data), ("Back", "A1".data)]
           ["obsidian-src::n"],
         RemoteCall.findNotes "tag:obsidian-src::n",
         RemoteCall.deleteNotes [888]] ∧
    ((syncNote c4Note "f" "n" "" "D" c4Env false true).result.details.filter
        fun d => d.action = CardAction.deletedFromObsidian
          && d.ankiNoteId = some 888).length = 0 := by
  refine ⟨by decide, by decide, by decide⟩

/-- C4 (amended): every identity returned by the scoped orphan query that
is not among the post-loop expected identities appears exactly once in
the orphan outcome records when the tag-orphan policy fires and the
add-tags call does not fail (preview mode makes no call; otherwise
`add_tags` must succeed) — assuming the query returns distinct
identities; it appears zero times when the delete-orphans policy fires in
a non-preview run, and zero times when a non-preview `add_tags` call
fails, since the shared exception handler then skips the per-orphan
detail loop and records an orphan-detection error instead. -/
theorem c4_orphan_record_multiplicity (md : Text) (fp stem noteTags deck : String)
    (env : Env) (dry delOrph : Bool) (allIds : List Nat) (x : Nat)
    (hc : ¬((parseCardsWithIds md).isEmpty = true))
    (hfetch : (parseCardsWithIds md).filterMap Prod.snd = []
              ∨ ∃ infos, env.fetch = Except.ok infos)
    (hfind : env.findNotes = Except.ok allIds)
    (hnd : allIds.Nodup)
    (hmem : x ∈ allIds)
    (hx : x ∉ (syncNote md fp stem noteTags deck env dry delOrph).newCardIds.filterMap
            Prod.snd) :
    ((syncNote md fp stem noteTags deck env dry delOrph).result.details.filter
        fun d => d.action = CardAction.deletedFromObsidian && d.ankiNoteId = some x).length
      = if delOrph && !dry then 0
        else if dry then 1
        else match env.addTags with
          | Except.ok _ => 1
          | Except.error _ => 0 := by
  obtain ⟨infos, calls0, heq⟩ :=
    syncNote_eq_syncMain md fp stem noteTags deck env dry delOrph hc hfetch
  rw [heq] at hx ⊢
  rw [syncMain_newCardIds] at hx
  rw [syncMain_details]
  set L := runLoop env dry deck (tagListOf noteTags (sourceTag stem)) infos 0
    (parseCardsWithIds md) { result := emptyResult fp, newCardIds := [], calls := calls0 }
    with hLdef
  obtain ⟨ds, hds, hp⟩ := runLoop_details env dry deck (tagListOf noteTags (sourceTag stem))
    infos (parseCardsWithIds md) 0
    { result := emptyResult fp, newCardIds := [], calls := calls0 }
  rw [← hLdef] at hds
  have hLdetails : L.result.details = ds := by
    rw [hds]; rfl
  have hLfilter :
      (L.result.details.filter
        fun d => d.action = CardAction.deletedFromObsidian && d.ankiNoteId = some x) = [] := by
    rw [hLdetails]
    refine List.filter_eq_nil_iff.mpr ?_
    intro d hd
    simp [hp d hd]
  unfold orphanStep
  rw [hfind]
  dsimp only
  have hxo : x ∈ allIds.filter
      (fun nid => !((L.newCardIds.filterMap Prod.snd).contains nid)) := by
    refine List.mem_filter.mpr ⟨hmem, ?_⟩
    rw [contains_eq_decide_mem]
    simpa using hx
  have hne : ¬((allIds.filter
      (fun nid => !((L.newCardIds.filterMap Prod.snd).contains nid))).isEmpty = true) := by
    intro h
    rw [List.isEmpty_iff] at h
    rw [h] at hxo
    exact absurd hxo (List.not_mem_nil x)
  rw [if_neg hne]
  have hone :
      ((L.result.details ++ (allIds.filter
          (fun nid => !((L.newCardIds.filterMap Prod.snd).contains nid))).map orphanRecord).filter
        fun d => d.action = CardAction.deletedFromObsidian && d.ankiNoteId = some x).length
        = 1 := by
    rw [List.filter_append, hLfilter, List.nil_append]
    rw [List.filter_map orphanRecord
      (allIds.filter (fun nid => !((L.newCardIds.filterMap Prod.snd).contains nid)))]
    rw [List.length_map]
    have hcongr :
        (allIds.filter
            (fun nid => !((L.newCardIds.filterMap Prod.snd).contains nid))).filter
          ((fun d => d.action = CardAction.deletedFromObsidian && d.ankiNoteId = some x) ∘
            orphanRecord)
        = (allIds.filter
            (fun nid => !((L.newCardIds.filterMap Prod.snd).contains nid))).filter
          (fun oid => oid == x) := by
      refine List.filter_congr ?_
      intro a _
      by_cases hax : a = x <;> simp [Function.comp, orphanRecord, hax]
    rw [hcongr]
    rw [← List.countP_eq_length_filter]
    have hcount : (allIds.filter
        (fun nid => !((L.newCardIds.filterMap Prod.snd).contains nid))).count x = 1 :=
      List.count_eq_one_of_mem (hnd.filter _) hxo
    rw [List.count] at hcount
    exact hcount
  by_cases hb : (delOrph && !dry) = true
  · simp only [if_pos hb]
    cases env.deleteNotes with
    | ok u =>
      dsimp only
      rw [hLfilter]
      rfl
    | error e =>
      dsimp only
      rw [hLfilter]
      rfl
  · simp only [if_neg hb]
    by_cases hdry : dry = true
    · simp only [if_pos hdry]
      exact hone
    · simp only [if_neg hdry]
      cases env.addTags with
      | ok u =>
        dsimp only
        exact hone
      | error e =>
        dsimp only
        rw [hLfilter]
        rfl

/-- Witness for C4's amended theorem: the tag-orphan branch of the
counterexample scenario (add-tags succeeding) records orphan 888 exactly
once. -/
theorem c4_orphan_record_multiplicity_witness :
    ((syncNote c4Note "f" "n" "" "D" c4Env false false).result.details.filter
        fun d => d.action = CardAction.deletedFromObsidian
          && d.ankiNoteId = some 888).length = 1 :=
  c4_orphan_record_multiplicity c4Note "f" "n" "" "D" c4Env false false [500, 888] 888
    (by decide) (Or.inl (by decide)) rfl (by decide) (by decide) (by decide)

/-! ## Dry-run lemmas for C2 -/

lemma syncStep_dry_calls (env : Env) (deck : String) (tagList : List String)
    (infos : List AnkiNoteInfo) (acc : LoopAcc) (idx : Nat) (card : Card)
    (aid : Option Nat) :
    (syncStep env true deck tagList infos acc idx card aid).calls = acc.calls := by
  unfold syncStep
  cases aid with
  | none => simp
  | some a =>
    cases hl : lookupInfo infos a with
    | some info =>
      cases hfm : fieldsMatch card info with
      | true => simp [hl, hfm]
      | false => simp [hl, hfm]
    | none => simp [hl]

lemma runLoop_dry_calls (env : Env) (deck : String) (tagList : List String)
    (infos : List AnkiNoteInfo) :
    ∀ (cs : List (Card × Option Nat)) (i : Nat) (acc : LoopAcc),
      (runLoop env true deck tagList infos i cs acc).calls = acc.calls := by
  intro cs
  induction cs with
  | nil => intro i acc; rfl
  | cons c cs ih =>
    intro i acc
    simp only [runLoop]
    rw [ih, syncStep_dry_calls]

lemma orphanStep_dry_calls (env : Env) (delOrph : Bool) (srcTag : String) (acc : LoopAcc) :
    (orphanStep env true delOrph srcTag acc).calls
      = acc.calls ++ [RemoteCall.findNotes ("tag:" ++ srcTag)] := by
  unfold orphanStep
  cases env.findNotes with
  | error e => rfl
  | ok allIds =>
    dsimp only
    split
    · rfl
    · simp

lemma imageStep_dry (env : Env) (cards : List (Card × Option Nat)) (acc : LoopAcc) :
    imageStep env true cards acc = (acc, false) := by
  unfold imageStep
  simp

lemma orphanStep_cnts (env : Env) (dry delOrph : Bool) (srcTag : String) (acc : LoopAcc) :
    (orphanStep env dry delOrph srcTag acc).result.newCount = acc.result.newCount ∧
    (orphanStep env dry delOrph srcTag acc).result.updatedCount = acc.result.updatedCount ∧
    (orphanStep env dry delOrph srcTag acc).result.unchangedCount = acc.result.unchangedCount := by
  unfold orphanStep
  cases env.findNotes with
  | error e => exact ⟨rfl, rfl, rfl⟩
  | ok allIds =>
    dsimp only
    split
    · exact ⟨rfl, rfl, rfl⟩
    · split
      · cases env.deleteNotes <;> exact ⟨rfl, rfl, rfl⟩
      · split
        · exact ⟨rfl, rfl, rfl⟩
        · cases env.addTags <;> exact ⟨rfl, rfl, rfl⟩

lemma imageStep_cnts (env : Env) (dry : Bool) (cards : List (Card × Option Nat))
    (acc : LoopAcc) :
    (imageStep env dry cards acc).1.result.newCount = acc.result.newCount ∧
    (imageStep env dry cards acc).1.result.updatedCount = acc.result.updatedCount ∧
    (imageStep env dry cards acc).1.result.unchangedCount = acc.result.unchangedCount := by
  unfold imageStep
  dsimp only
  split_ifs <;> exact ⟨rfl, rfl, rfl⟩

lemma runLoop_cnts_dry_wet (env : Env) (deck : String) (tagList : List String)
    (infos : List AnkiNoteInfo)
    (hAdd : ∀ i, ∃ n, env.addNote i = Except.ok n)
    (hUpd : ∀ i, env.updateNote i = Except.ok ()) :
    ∀ (cs : List (Card × Option Nat)) (i : Nat) (a b : LoopAcc),
      a.result.newCount = b.result.newCount →
      a.result.updatedCount = b.result.updatedCount →
      a.result.unchangedCount = b.result.unchangedCount →
      (runLoop env true deck tagList infos i cs a).result.newCount
          = (runLoop env false deck tagList infos i cs b).result.newCount ∧
      (runLoop env true deck tagList infos i cs a).result.updatedCount
          = (runLoop env false deck tagList infos i cs b).result.updatedCount ∧
      (runLoop env true deck tagList infos i cs a).result.unchangedCount
          = (runLoop env false deck tagList infos i cs b).result.unchangedCount := by
  intro cs
  induction cs with
  | nil =>
    intro i a b h1 h2 h3
    exact ⟨h1, h2, h3⟩
  | cons c cs ih =>
    intro i a b h1 h2 h3
    simp only [runLoop]
    apply ih
    · -- newCount after one step
      rcases c with ⟨card, aid⟩
      cases aid with
      | none =>
        obtain ⟨n, hn⟩ := hAdd i
        simp [syncStep, hn, h1]
      | some av =>
        cases hl : lookupInfo infos av with
        | some info =>
          cases hfm : fieldsMatch card info with
          | true => simp [syncStep, hl, hfm, h1]
          | false => simp [syncStep, hl, hfm, hUpd i, h1]
        | none =>
          obtain ⟨n, hn⟩ := hAdd i
          simp [syncStep, hl, hn, h1]
    · rcases c with ⟨card, aid⟩
      cases aid with
      | none =>
        obtain ⟨n, hn⟩ := hAdd i
        simp [syncStep, hn, h2]
      | some av =>
        cases hl : lookupInfo infos av with
        | some info =>
          cases hfm : fieldsMatch card info with
          | true => simp [syncStep, hl, hfm, h2]
          | false => simp [syncStep, hl, hfm, hUpd i, h2]
        | none =>
          obtain ⟨n, hn⟩ := hAdd i
          simp [syncStep, hl, hn, h2]
    · rcases c with ⟨card, aid⟩
      cases aid with
      | none =>
        obtain ⟨n, hn⟩ := hAdd i
        simp [syncStep, hn, h3]
      | some av =>
        cases hl : lookupInfo infos av with
        | some info =>
          cases hfm : fieldsMatch card info with
          | true => simp [syncStep, hl, hfm, h3]
          | false => simp [syncStep, hl, hfm, hUpd i, h3]
        | none =>
          obtain ⟨n, hn⟩ := hAdd i
          simp [syncStep, hl, hn, h3]

lemma syncMain_dry_pure (md : Text) (fp deck srcTag : String) (tagList : List String)
    (env : Env) (delOrph : Bool) (cards : List (Card × Option Nat))
    (infos : List AnkiNoteInfo) (calls0 : List RemoteCall)
    (hc0 : calls0.filter RemoteCall.isMutation = []) :
    (syncMain md fp deck srcTag tagList env true delOrph cards infos calls0).calls.filter
        RemoteCall.isMutation = [] ∧
    (syncMain md fp deck srcTag tagList env true delOrph cards infos calls0).fileWrite = none ∧
    (syncMain md fp deck srcTag tagList env true delOrph cards infos calls0).copiedImages
      = false := by
  unfold syncMain
  dsimp only
  rw [imageStep_dry]
  refine ⟨?_, rfl, rfl⟩
  dsimp only
  rw [orphanStep_dry_calls, runLoop_dry_calls]
  dsimp only
  rw [List.filter_append, hc0]
  rfl

lemma syncMain_cnts_dry_wet (md : Text) (fp deck srcTag : String) (tagList : List String)
    (env : Env) (delOrph : Bool) (cards : List (Card × Option Nat))
    (infos : List AnkiNoteInfo) (calls0 : List RemoteCall)
    (hAdd : ∀ i, ∃ n, env.addNote i = Except.ok n)
    (hUpd : ∀ i, env.updateNote i = Except.ok ()) :
    (syncMain md fp deck srcTag tagList env true delOrph cards infos calls0).result.newCount
      = (syncMain md fp deck srcTag tagList env false delOrph cards infos calls0).result.newCount ∧
    (syncMain md fp deck srcTag tagList env true delOrph cards infos calls0).result.updatedCount
      = (syncMain md fp deck srcTag tagList env false delOrph cards infos calls0).result.updatedCount ∧
    (syncMain md fp deck srcTag tagList env true delOrph cards infos calls0).result.unchangedCount
      = (syncMain md fp deck srcTag tagList env false delOrph cards infos calls0).result.unchangedCount := by
  have hloop := runLoop_cnts_dry_wet env deck tagList infos hAdd hUpd cards 0
    { result := emptyResult fp, newCardIds := [], calls := calls0 }
    { result := emptyResult fp, newCardIds := [], calls := calls0 } rfl rfl rfl
  unfold syncMain
  dsimp only
  refine ⟨?_, ?_, ?_⟩
  · rw [(imageStep_cnts ..).1, (imageStep_cnts ..).1,
        (orphanStep_cnts ..).1, (orphanStep_cnts ..).1]
    exact hloop.1
  · rw [(imageStep_cnts ..).2.1, (imageStep_cnts ..).2.1,
        (orphanStep_cnts ..).2.1, (orphanStep_cnts ..).2.1]
    exact hloop.2.1
  · rw [(imageStep_cnts ..).2.2, (imageStep_cnts ..).2.2,
        (orphanStep_cnts ..).2.2, (orphanStep_cnts ..).2.2]
    exact hloop.2.2

/-! ## C2 — preview-mode purity -/

/-- C2 (confirmed): a preview (`dry_run`) sync issues no create, update,
delete or add-tag call, writes no file, copies no images, and — provided
the non-preview run's create/update calls succeed — produces the same
new/updated/unchanged counts as a non-preview run against the identical
remote state. -/
theorem c2_preview_purity (md : Text) (fp stem noteTags deck : String) (env : Env)
    (delOrph : Bool)
    (hAdd : ∀ i, ∃ n, env.addNote i = Except.ok n)
    (hUpd : ∀ i, env.updateNote i = Except.ok ()) :
    (syncNote md fp stem noteTags deck env true delOrph).calls.filter
        RemoteCall.isMutation = [] ∧
    (syncNote md fp stem noteTags deck env true delOrph).fileWrite = none ∧
    (syncNote md fp stem noteTags deck env true delOrph).copiedImages = false ∧
    (syncNote md fp stem noteTags deck env true delOrph).result.newCount
      = (syncNote md fp stem noteTags deck env false delOrph).result.newCount ∧
    (syncNote md fp stem noteTags deck env true delOrph).result.updatedCount
      = (syncNote md fp stem noteTags deck env false delOrph).result.updatedCount ∧
    (syncNote md fp stem noteTags deck env true delOrph).result.unchangedCount
      = (syncNote md fp stem noteTags deck env false delOrph).result.unchangedCount := by
  unfold syncNote
  dsimp only
  by_cases hc : (parseCardsWithIds md).isEmpty = true
  · rw [List.isEmpty_iff] at hc
    simp [hc]
  · simp only [if_neg hc]
    by_cases hk : ((parseCardsWithIds md).filterMap Prod.snd).isEmpty = true
    · simp only [if_pos hk]
      obtain ⟨hm, hfw, hci⟩ := syncMain_dry_pure md fp deck (sourceTag stem)
        (tagListOf noteTags (sourceTag stem)) env delOrph (parseCardsWithIds md) [] [] rfl
      obtain ⟨h1, h2, h3⟩ := syncMain_cnts_dry_wet md fp deck (sourceTag stem)
        (tagListOf noteTags (sourceTag stem)) env delOrph (parseCardsWithIds md) [] []
        hAdd hUpd
      exact ⟨hm, hfw, hci, h1, h2, h3⟩
    · simp only [if_neg hk]
      cases hf : env.fetch with
      | error e => exact ⟨by simp [RemoteCall.isMutation], rfl, rfl, rfl, rfl, rfl⟩
      | ok infos =>
        obtain ⟨hm, hfw, hci⟩ := syncMain_dry_pure md fp deck (sourceTag stem)
          (tagListOf noteTags (sourceTag stem)) env delOrph (parseCardsWithIds md) infos
          [RemoteCall.notesInfo ((parseCardsWithIds md).filterMap Prod.snd)]
          (by simp [RemoteCall.isMutation])
        obtain ⟨h1, h2, h3⟩ := syncMain_cnts_dry_wet md fp deck (sourceTag stem)
          (tagListOf noteTags (sourceTag stem)) env delOrph (parseCardsWithIds md) infos
          [RemoteCall.notesInfo ((parseCardsWithIds md).filterMap Prod.snd)] hAdd hUpd
        exact ⟨hm, hfw, hci, h1, h2, h3⟩

/-- Witness for C2: a note with one unmarked card, create returning 500. -/
theorem c2_preview_purity_witness :
    (syncNote c4Note "f" "n" "" "D" c4Env true false).calls.filter
        RemoteCall.isMutation = [] ∧
    (syncNote c4Note "f" "n" "" "D" c4Env true false).fileWrite = none ∧
    (syncNote c4Note "f" "n" "" "D" c4Env true false).copiedImages = false ∧
    (syncNote c4Note "f" "n" "" "D" c4Env true false).result.newCount
      = (syncNote c4Note "f" "n" "" "D" c4Env false false).result.newCount ∧
    (syncNote c4Note "f" "n" "" "D" c4Env true false).result.updatedCount
      = (syncNote c4Note "f" "n" "" "D" c4Env false false).result.updatedCount ∧
    (syncNote c4Note "f" "n" "" "D" c4Env true false).result.unchangedCount
      = (syncNote c4Note "f" "n" "" "D" c4Env false false).result.unchangedCount :=
  c2_preview_purity c4Note "f" "n" "" "D" c4Env false
    (fun _ => ⟨500, rfl⟩) (fun _ => rfl)
